import Mathlib

/-!
Shallow embedding of the calorie-lookup core of the meal-calorie backend
(`src/server.js`, class `USDAService`), together with its result cache.

JavaScript numbers are modelled as rationals (`ℚ`), `Math.round` as
`jsRound` (floor of `x + 1/2`, JavaScript's round-half-toward-positive
semantics), fallible operations as `Option`/`Except`, and the mutable
module-level `NodeCache` as explicit state passing.  The Fuse.js fuzzy
search is an external library, so `findBestMatch` is parameterised over
an arbitrary search function producing the ranked result list.
-/

namespace MealCalorie

/-- JavaScript `Math.round`: round half toward positive infinity. -/
def jsRound (x : ℚ) : Int := Int.floor (x + 1/2)

/-- Case-insensitive lowering, as in JavaScript `toLowerCase` (ASCII-faithful). -/
def strLower (s : String) : String := String.mk (s.data.map Char.toLower)

/-- Test whether `pat` occurs at the start of `s` (character lists). -/
def charsStartWith : List Char → List Char → Bool
  | _, [] => true
  | [], _ :: _ => false
  | c :: cs, p :: ps => c == p && charsStartWith cs ps

/-- Test whether `pat` occurs somewhere in `s` (character lists). -/
def charsContains : List Char → List Char → Bool
  | [], pat => pat.isEmpty
  | c :: cs, pat => charsStartWith (c :: cs) pat || charsContains cs pat

/-- JavaScript `String.prototype.includes`: `pat` occurs as a substring of `s`. -/
def strIncludes (s pat : String) : Bool := charsContains s.data pat.data

/-- One measured nutrient of a food record (`foodNutrients` element).
Fields can be absent in the upstream JSON, hence `Option`. -/
structure NutrientEntry where
  nutrientId : Option Int
  nutrientName : Option String
  value : Option ℚ
  deriving Repr, DecidableEq

/-- A candidate food record returned by the USDA search. -/
structure Food where
  fdcId : Nat
  description : String
  brandName : Option String
  ingredients : Option String
  foodNutrients : Option (List NutrientEntry)
  deriving Repr, DecidableEq

/-- The failure taxonomy of the service: the three Source Client failures
(`searchFoods` lines 138-146) and the three orchestrator failures
(`getCalories` lines 231-247).  Each corresponds to one distinct thrown
`Error` message in the source. -/
inductive LookupError where
  /-- Thrown as `'USDA API rate limit exceeded. Please try again later.'` -/
  | rateLimited : LookupError
  /-- Thrown as `'Invalid USDA API key or access denied.'` -/
  | unauthorized : LookupError
  /-- Thrown as `'Failed to fetch food data from USDA API'` -/
  | transient : LookupError
  /-- Thrown as `` `No nutrition data found for "${dishName}"` `` -/
  | notFound (dishName : String) : LookupError
  /-- Thrown as `` `Could not find a suitable match for "${dishName}"` `` -/
  | noMatch (dishName : String) : LookupError
  /-- Thrown as `` `Calorie information not available for "${dishName}"` `` -/
  | caloriesUnavailable (dishName : String) : LookupError
  deriving Repr, DecidableEq

/-- Outcome of the `axios.get` call to the USDA `/foods/search` endpoint:
either an HTTP success whose body may or may not carry a `foods` array,
or a request failure carrying `error.response?.status` when the failure
has an HTTP response at all. -/
inductive UpstreamResult where
  | success (foods : Option (List Food)) : UpstreamResult
  | failure (status : Option Nat) : UpstreamResult
  deriving Repr, DecidableEq

/-- The upstream API as a function from (already-trimmed) query and page
size to an outcome. -/
def Upstream := String → Nat → UpstreamResult

/-- The `NodeCache` instance (`const cache = new NodeCache({ stdTTL: 3600 })`),
modelled as an association list of key, insertion time (seconds) and stored
food list; lookups see the newest entry for a key. -/
structure CacheState where
  entries : List (String × Nat × List Food)
  deriving Repr, DecidableEq

/-- The TTL, `stdTTL: 3600` seconds. -/
def cacheTTL : Nat := 3600

def emptyCache : CacheState := ⟨[]⟩

/-- Model of `cache.get(key)` at time `now`: the newest entry for the key, dropped
lazily once `now` has passed its expiry time `insertedAt + TTL`. -/
def cacheGet (c : CacheState) (key : String) (now : Nat) : Option (List Food) :=
  match c.entries.find? (fun e => e.1 == key) with
  | some (_, t, v) => if now ≤ t + cacheTTL then some v else none
  | none => none

/-- Model of `cache.set(key, foods)` at time `now`. -/
def cacheSet (c : CacheState) (key : String) (now : Nat) (v : List Food) : CacheState :=
  ⟨(key, now, v) :: c.entries⟩

/-- The cache key of `searchFoods` line 106:
`` const cacheKey = `search_${query}_${pageSize}` `` — built from the raw,
untrimmed query. -/
def cacheKey (query : String) (pageSize : Nat) : String :=
  "search_" ++ query ++ "_" ++ toString pageSize

/-- Model of `searchFoods(query, pageSize)` (`src/server.js` lines 104-148).
Returns the result, the cache state after the call, and whether the
external source was contacted.  A cache hit returns the cached list
unchanged; on a miss the upstream is called with the trimmed query, an
HTTP success stores `response.data.foods || []` into the cache before
returning it, and a failure is classified by status: 429 → `rateLimited`,
403 → `unauthorized`, anything else → `transient`. -/
def searchFoods (up : Upstream) (c : CacheState) (now : Nat)
    (query : String) (pageSize : Nat) :
    Except LookupError (List Food) × CacheState × Bool :=
  match cacheGet c (cacheKey query pageSize) now with
  | some cached => (Except.ok cached, c, false)
  | none =>
    match up query.trim pageSize with
    | UpstreamResult.success foodsOpt =>
        (Except.ok (foodsOpt.getD []),
          cacheSet c (cacheKey query pageSize) now (foodsOpt.getD []), true)
    | UpstreamResult.failure status =>
        if status == some 429 then (Except.error LookupError.rateLimited, c, true)
        else if status == some 403 then (Except.error LookupError.unauthorized, c, true)
        else (Except.error LookupError.transient, c, true)

/-- The abstract Fuse.js fuzzy search (`new Fuse(foods, fuseOptions)` then
`fuse.search(query)`): an external library call yielding the ranked list of
matching candidates (best first, already filtered by the 0.6 threshold). -/
def FuseSearch := List Food → String → List Food

/-- Model of `findBestMatch(foods, query)` (`src/server.js` lines 156-190):
null for an empty list, the sole element of a singleton unconditionally,
otherwise the top fuzzy-search result, falling back to the first food of
the original list when the fuzzy search returns nothing. -/
def findBestMatch (fuse : FuseSearch) (foods : List Food) (query : String) :
    Option Food :=
  match foods with
  | [] => none
  | [f] => some f
  | f :: _ =>
    match fuse foods query with
    | r :: _ => some r
    | [] => some f

/-- The combined predicate of the single `find` pass in `extractCalories`
lines 204-207: `nutrient.nutrientId === 1008 ||
(nutrient.nutrientName && nutrient.nutrientName.toLowerCase().includes('energy'))`. -/
def isEnergyNutrient (n : NutrientEntry) : Bool :=
  n.nutrientId == some 1008 ||
    (match n.nutrientName with
     | some name => strIncludes (strLower name) "energy"
     | none => false)

/-- Model of `extractCalories(food)` (`src/server.js` lines 197-218): `null` when
`foodNutrients` is absent; otherwise one linear scan for the first entry
satisfying the combined energy predicate; the entry's value is returned
only when truthy (`if (energyNutrient && energyNutrient.value)`), so a
missing or zero value also yields `null`. -/
def extractCalories (food : Food) : Option ℚ :=
  match food.foodNutrients with
  | none => none
  | some nutrients =>
    match nutrients.find? isEnergyNutrient with
    | some e =>
      match e.value with
      | some v => if v ≠ 0 then some v else none
      | none => none
    | none => none

/-- The Calorie Calculator step (`getCalories` lines 252-253):
`caloriesPerServing = Math.round(caloriesPer100g)`;
`totalCalories = Math.round(caloriesPerServing * servings)`. -/
def compute (caloriesPer100g : ℚ) (servings : ℚ) : Int × Int :=
  let caloriesPerServing := jsRound caloriesPer100g
  (caloriesPerServing, jsRound ((caloriesPerServing : ℚ) * servings))

/-- The successful response shape of `getCalories` (lines 255-263). -/
structure CalorieResult where
  dish_name : String
  servings : ℚ
  calories_per_serving : Int
  total_calories : Int
  source : String
  matched_food : String
  food_id : Nat
  deriving Repr, DecidableEq

/-- Model of `getCalories(dishName, servings)` (`src/server.js` lines 226-269):
search (page size defaulting to 25), `NotFound` on an empty list,
best match, `NoMatch` if the matcher returns nothing, extract calories,
`CaloriesUnavailable` if none, then round-then-multiply and assemble the
result; errors thrown by `searchFoods` are re-thrown unchanged by the
catch block. -/
def getCalories (fuse : FuseSearch) (up : Upstream) (c : CacheState) (now : Nat)
    (dishName : String) (servings : ℚ) :
    Except LookupError CalorieResult × CacheState :=
  match searchFoods up c now dishName 25 with
  | (Except.error e, c', _) => (Except.error e, c')
  | (Except.ok foods, c', _) =>
    if foods.isEmpty then
      (Except.error (LookupError.notFound dishName), c')
    else
      match findBestMatch fuse foods dishName with
      | none => (Except.error (LookupError.noMatch dishName), c')
      | some bestMatch =>
        match extractCalories bestMatch with
        | none => (Except.error (LookupError.caloriesUnavailable dishName), c')
        | some caloriesPer100g =>
          let caloriesPerServing := jsRound caloriesPer100g
          let totalCalories := jsRound ((caloriesPerServing : ℚ) * servings)
          (Except.ok
            { dish_name := dishName
              servings := servings
              calories_per_serving := caloriesPerServing
              total_calories := totalCalories
              source := "USDA FoodData Central"
              matched_food := bestMatch.description
              food_id := bestMatch.fdcId }, c')

/-! ## Test fixtures -/

/-- A fuzzy search that never returns a ranked candidate. -/
def trivFuse : FuseSearch := fun _ _ => []

/-- An upstream whose search always succeeds with the given candidates. -/
def upstreamOf (foods : List Food) : Upstream :=
  fun _ _ => UpstreamResult.success (some foods)

/-- An upstream whose response body carries no `foods` array. -/
def emptyUpstream : Upstream := fun _ _ => UpstreamResult.success none

/-- An energy nutrient entry worth 87 kcal per 100g. -/
def energyEntry87 : NutrientEntry := ⟨some 1008, some "Energy", some 87⟩

/-- A concrete candidate whose energy value is 87. -/
def dressingFood : Food :=
  ⟨101, "Italian dressing", none, none, some [energyEntry87]⟩

/-- The result of looking `dressingFood` up with 2 servings. -/
def dressingResult2 : CalorieResult :=
  ⟨"dressing", 2, 87, 174, "USDA FoodData Central", "Italian dressing", 101⟩

/-- Iteration of `n` successive `searchFoods` calls with the same query, page size and
time, threading the cache state; returns the final state and how many of
the calls contacted the external source. -/
def repeatSearch (up : Upstream) (now : Nat) (q : String) (p : Nat) :
    CacheState → Nat → CacheState × Nat
  | c, 0 => (c, 0)
  | c, n+1 =>
    let r := searchFoods up c now q p
    let rest := repeatSearch up now q p r.2.1 n
    (rest.1, (if r.2.2 then 1 else 0) + rest.2)

/-- An energy nutrient entry whose measured value is zero. -/
def energyEntry0 : NutrientEntry := ⟨some 1008, some "Energy", some 0⟩

/-- A genuinely zero-calorie candidate. -/
def zeroCalorieFood : Food := ⟨202, "Diet soda", none, none, some [energyEntry0]⟩

/-! ## Helper lemmas -/

/-- Rounding an integer returns it unchanged. -/
theorem jsRound_intCast (m : ℤ) : jsRound (m : ℚ) = m := by
  simp [jsRound]
  norm_num

/-- The search operation only ever fails with one of the three Source Client
failures. -/
theorem searchFoods_error_mem (up : Upstream) (c : CacheState) (now : Nat)
    (q : String) (p : Nat) (e : LookupError)
    (h : (searchFoods up c now q p).1 = Except.error e) :
    e = LookupError.rateLimited ∨ e = LookupError.unauthorized ∨
      e = LookupError.transient := by
  unfold searchFoods at h
  cases hget : cacheGet c (cacheKey q p) now with
  | some v => rw [hget] at h; simp at h
  | none =>
    rw [hget] at h
    cases hup : up q.trim p with
    | success fo => rw [hup] at h; simp at h
    | failure st =>
      rw [hup] at h
      simp at h
      split_ifs at h <;> simp_all

/-- On a non-empty list `findBestMatch` always returns some candidate. -/
theorem findBestMatch_isSome (fuse : FuseSearch) (foods : List Food)
    (query : String) (h : foods ≠ []) :
    (findBestMatch fuse foods query).isSome = true := by
  match foods with
  | [] => exact absurd rfl h
  | [f] => simp [findBestMatch]
  | f :: g :: rest =>
    unfold findBestMatch
    cases fuse (f :: g :: rest) query <;> simp

/-! ## Claims -/

/-- C9: `findBestMatch` returns nothing for an empty candidate list, and for
every singleton list it returns the sole element unconditionally, whatever
the fuzzy search and the query. -/
theorem C9_selectBest_empty_and_singleton :
    (∀ (fuse : FuseSearch) (q : String), findBestMatch fuse [] q = none) ∧
    (∀ (fuse : FuseSearch) (q : String) (f : Food),
      findBestMatch fuse [f] q = some f) := by
  constructor
  · intro fuse q; rfl
  · intro fuse q f; rfl

/-- C4: the Calorie Calculator rounds before multiplying —
`caloriesPerServing = round(caloriesPer100g)` and
`totalCalories = round(caloriesPerServing * servings)`; in particular
`compute 280 2 = (280, 560)` and `compute 87.4 3 = (87, 261)`. -/
theorem C4_compute_rounds_before_multiplying :
    compute 280 2 = (280, 560) ∧
    compute (437/5) 3 = (87, 261) ∧
    (∀ (c s : ℚ), (compute c s).1 = jsRound c ∧
      (compute c s).2 = jsRound (((compute c s).1 : ℚ) * s)) := by
  refine ⟨?_, ?_, ?_⟩
  · have h1 : jsRound 280 = 280 := by norm_num [jsRound, Int.floor_eq_iff]
    simp [compute, h1]
    norm_num [jsRound, Int.floor_eq_iff]
  · have h1 : jsRound (437/5) = 87 := by norm_num [jsRound, Int.floor_eq_iff]
    simp [compute, h1]
    norm_num [jsRound, Int.floor_eq_iff]
  · intro c s
    exact ⟨rfl, rfl⟩

/-- C1: for every non-empty candidate list `findBestMatch` returns some
candidate (falling back to the first candidate when the fuzzy search clears
nothing), and consequently `getCalories` can never fail with the `NoMatch`
error. -/
theorem C1_selectBest_total_noMatch_unreachable
    (fuse : FuseSearch) (foods : List Food) (query : String)
    (h : foods ≠ []) (up : Upstream) (c : CacheState) (now : Nat)
    (dish d : String) (servings : ℚ) :
    (findBestMatch fuse foods query).isSome = true ∧
    (getCalories fuse up c now dish servings).1 ≠
      Except.error (LookupError.noMatch d) := by
  refine ⟨findBestMatch_isSome fuse foods query h, ?_⟩
  unfold getCalories
  rcases hs : searchFoods up c now dish 25 with ⟨res, c', b⟩
  cases res with
  | error e =>
    have := searchFoods_error_mem up c now dish 25 e (by rw [hs])
    rcases this with h1 | h1 | h1 <;> simp [h1]
  | ok foods' =>
    by_cases hemp : foods'.isEmpty
    · simp [hemp]
    · simp only [hemp]
      have hne : foods' ≠ [] := by
        intro hh; rw [hh] at hemp; exact hemp rfl
      have hbm := findBestMatch_isSome fuse foods' dish hne
      cases hbm' : findBestMatch fuse foods' dish with
      | none => rw [hbm'] at hbm; simp at hbm
      | some bm =>
        cases hec : extractCalories bm <;> simp [hec]

/-- C1 witness. -/
theorem C1_witness :
    (([⟨1, "apple", none, none, none⟩] : List Food) ≠ []) ∧
    ((findBestMatch (fun _ _ => []) [⟨1, "apple", none, none, none⟩]
        "apple").isSome = true ∧
      (getCalories (fun _ _ => []) (fun _ _ => UpstreamResult.success none)
          emptyCache 0 "apple" 1).1 ≠
        Except.error (LookupError.noMatch "apple")) :=
  ⟨by simp,
    C1_selectBest_total_noMatch_unreachable (fun _ _ => [])
      [⟨1, "apple", none, none, none⟩] "apple" (by simp)
      (fun _ _ => UpstreamResult.success none) emptyCache 0 "apple" "apple" 1⟩

/-- Error propagation: a `searchFoods` failure surfaces from `getCalories`
unchanged. -/
theorem getCalories_propagates_error (fuse : FuseSearch) (up : Upstream)
    (c : CacheState) (now : Nat) (dish : String) (servings : ℚ)
    (e : LookupError)
    (h : (searchFoods up c now dish 25).1 = Except.error e) :
    (getCalories fuse up c now dish servings).1 = Except.error e := by
  rcases hs : searchFoods up c now dish 25 with ⟨res, c2, b2⟩
  rw [hs] at h
  simp at h
  subst h
  unfold getCalories
  rw [hs]

/-- An empty search result yields the `NotFound` failure. -/
theorem getCalories_notFound_of (fuse : FuseSearch) (up : Upstream)
    (c : CacheState) (now : Nat) (dish : String) (servings : ℚ)
    (h : (searchFoods up c now dish 25).1 = Except.ok []) :
    (getCalories fuse up c now dish servings).1 =
      Except.error (LookupError.notFound dish) := by
  rcases hs : searchFoods up c now dish 25 with ⟨res, c2, b2⟩
  rw [hs] at h
  simp at h
  subst h
  unfold getCalories
  rw [hs]
  simp

/-- A matched candidate with no extractable energy value yields the
`CaloriesUnavailable` failure. -/
theorem getCalories_unavailable_of (fuse : FuseSearch) (up : Upstream)
    (c : CacheState) (now : Nat) (dish : String) (servings : ℚ)
    (foods : List Food) (b : Food)
    (hfok : (searchFoods up c now dish 25).1 = Except.ok foods)
    (hbm : findBestMatch fuse foods dish = some b)
    (hec : extractCalories b = none) :
    (getCalories fuse up c now dish servings).1 =
      Except.error (LookupError.caloriesUnavailable dish) := by
  rcases hs : searchFoods up c now dish 25 with ⟨res, c2, b2⟩
  rw [hs] at hfok
  simp at hfok
  subst hfok
  unfold getCalories
  rw [hs]
  cases foods with
  | nil => simp [findBestMatch] at hbm
  | cons f fs => simp [hbm, hec]

/-- The shape of a successful lookup result. -/
theorem getCalories_ok_of (fuse : FuseSearch) (up : Upstream)
    (c : CacheState) (now : Nat) (dish : String) (servings : ℚ)
    (foods : List Food) (b : Food) (v : ℚ)
    (hfok : (searchFoods up c now dish 25).1 = Except.ok foods)
    (hbm : findBestMatch fuse foods dish = some b)
    (hec : extractCalories b = some v) :
    (getCalories fuse up c now dish servings).1 = Except.ok
      { dish_name := dish, servings := servings,
        calories_per_serving := jsRound v,
        total_calories := jsRound ((jsRound v : ℚ) * servings),
        source := "USDA FoodData Central",
        matched_food := b.description, food_id := b.fdcId } := by
  rcases hs : searchFoods up c now dish 25 with ⟨res, c2, b2⟩
  rw [hs] at hfok
  simp at hfok
  subst hfok
  unfold getCalories
  rw [hs]
  cases foods with
  | nil => simp [findBestMatch] at hbm
  | cons f fs => simp [hbm, hec]

/-- C5: on a cache miss, `searchFoods` fails with `RateLimited` exactly when
the upstream status is 429, with `Unauthorized` exactly when it is 403, and
with `Transient` for any other request failure; an upstream success — even
one carrying no results — returns the (possibly empty) list and is not an
error. -/
theorem C5_searchFoods_error_classification
    (up : Upstream) (c : CacheState) (now : Nat) (q : String) (p : Nat)
    (hmiss : cacheGet c (cacheKey q p) now = none) :
    ((searchFoods up c now q p).1 = Except.error LookupError.rateLimited ↔
      up q.trim p = UpstreamResult.failure (some 429)) ∧
    ((searchFoods up c now q p).1 = Except.error LookupError.unauthorized ↔
      up q.trim p = UpstreamResult.failure (some 403)) ∧
    ((searchFoods up c now q p).1 = Except.error LookupError.transient ↔
      (∃ st, up q.trim p = UpstreamResult.failure st ∧
        st ≠ some 429 ∧ st ≠ some 403)) ∧
    (∀ fo, up q.trim p = UpstreamResult.success fo →
      (searchFoods up c now q p).1 = Except.ok (fo.getD [])) := by
  unfold searchFoods
  rw [hmiss]
  cases hup : up q.trim p with
  | success fo => simp
  | failure st =>
    by_cases h429 : st = some 429
    · subst h429; simp
    · by_cases h403 : st = some 403
      · subst h403; simp
      · simp [h429, h403]

/-- C5 witness. -/
theorem C5_witness :
    cacheGet emptyCache (cacheKey "rice" 25) 0 = none ∧
    (((searchFoods (fun _ _ => UpstreamResult.failure (some 429)) emptyCache
        0 "rice" 25).1 = Except.error LookupError.rateLimited ↔
      (fun (_ : String) (_ : Nat) => UpstreamResult.failure (some 429))
        "rice".trim 25 = UpstreamResult.failure (some 429))) :=
  ⟨rfl,
    (C5_searchFoods_error_classification
      (fun _ _ => UpstreamResult.failure (some 429)) emptyCache 0 "rice" 25
      rfl).1⟩

/-- C6: `getCalories` propagates `searchFoods` failures unchanged, maps an
empty search result to `NotFound`, maps a matched candidate with no
extractable energy value to `CaloriesUnavailable`, on success assembles the
result with the constant source label and the winning candidate's
description and identifier, and the six failure kinds are pairwise
distinct. -/
theorem C6_getCalories_orchestration
    (fuse : FuseSearch) (up : Upstream) (c : CacheState) (now : Nat)
    (dish : String) (servings : ℚ) :
    (∀ e, (searchFoods up c now dish 25).1 = Except.error e →
      (getCalories fuse up c now dish servings).1 = Except.error e) ∧
    ((searchFoods up c now dish 25).1 = Except.ok [] →
      (getCalories fuse up c now dish servings).1 =
        Except.error (LookupError.notFound dish)) ∧
    (∀ foods b, (searchFoods up c now dish 25).1 = Except.ok foods →
      findBestMatch fuse foods dish = some b → extractCalories b = none →
      (getCalories fuse up c now dish servings).1 =
        Except.error (LookupError.caloriesUnavailable dish)) ∧
    (∀ foods b v, (searchFoods up c now dish 25).1 = Except.ok foods →
      findBestMatch fuse foods dish = some b → extractCalories b = some v →
      (getCalories fuse up c now dish servings).1 = Except.ok
        { dish_name := dish, servings := servings,
          calories_per_serving := jsRound v,
          total_calories := jsRound ((jsRound v : ℚ) * servings),
          source := "USDA FoodData Central",
          matched_food := b.description, food_id := b.fdcId }) ∧
    [LookupError.rateLimited, LookupError.unauthorized,
      LookupError.transient, LookupError.notFound dish,
      LookupError.noMatch dish,
      LookupError.caloriesUnavailable dish].Pairwise (· ≠ ·) := by
  refine ⟨?_, ?_, ?_, ?_, ?_⟩
  · intro e he
    exact getCalories_propagates_error fuse up c now dish servings e he
  · intro hok
    exact getCalories_notFound_of fuse up c now dish servings hok
  · intro foods b hfok hbm hec
    exact getCalories_unavailable_of fuse up c now dish servings foods b
      hfok hbm hec
  · intro foods b v hfok hbm hec
    exact getCalories_ok_of fuse up c now dish servings foods b v hfok hbm hec
  · simp

/-- C6 witness. -/
theorem C6_witness :
    (searchFoods emptyUpstream emptyCache 0 "xyznonfood" 25).1 =
      Except.ok [] ∧
    (getCalories trivFuse emptyUpstream emptyCache 0 "xyznonfood" 2).1 =
      Except.error (LookupError.notFound "xyznonfood") :=
  ⟨rfl,
    (C6_getCalories_orchestration trivFuse emptyUpstream emptyCache 0
      "xyznonfood" 2).2.1 rfl⟩

/-- Rounding an already-integral product of integers is exact. -/
theorem jsRound_int_mul (m n : ℤ) : jsRound ((m : ℚ) * (n : ℚ)) = m * n := by
  have h := jsRound_intCast (m * n)
  push_cast at h
  exact h

/-- C2 counterexample: with `caloriesPerServing = 87` and `servings = 3/2`
the code rounds the product and returns `totalCalories = 131`, whereas the
claimed exact product `round(caloriesPerServing) * servings` is `130.5`. -/
theorem C2_counterexample :
    (getCalories trivFuse (upstreamOf [dressingFood]) emptyCache 0
        "dressing" (3/2)).1 = Except.ok
      { dish_name := "dressing", servings := 3/2,
        calories_per_serving := 87, total_calories := 131,
        source := "USDA FoodData Central",
        matched_food := "Italian dressing", food_id := 101 } ∧
    ¬((131 : ℚ) = (87 : ℚ) * (3/2)) := by
  constructor
  · rw [getCalories_ok_of trivFuse (upstreamOf [dressingFood]) emptyCache 0
      "dressing" (3/2) [dressingFood] dressingFood 87 rfl rfl rfl]
    norm_num [jsRound, Int.floor_eq_iff, dressingFood]
  · norm_num

/-- C2 (amended): for every successful lookup, `totalCalories` is the
per-serving value times the servings count rounded once more —
`round(caloriesPerServing * servings)` — and only for integer servings does
it equal the exact product of the already-rounded per-serving value and the
servings count. -/
theorem C2_amended_rounded_product (fuse : FuseSearch) (up : Upstream)
    (c : CacheState) (now : Nat) (dish : String) (servings : ℚ)
    (r : CalorieResult)
    (h : (getCalories fuse up c now dish servings).1 = Except.ok r) :
    r.total_calories = jsRound ((r.calories_per_serving : ℚ) * servings) ∧
    (∀ n : ℤ, servings = (n : ℚ) →
      (r.total_calories : ℚ) = (r.calories_per_serving : ℚ) * servings) := by
  cases hs : (searchFoods up c now dish 25).1 with
  | error e =>
    rw [getCalories_propagates_error fuse up c now dish servings e hs] at h
    simp at h
  | ok foods =>
    cases foods with
    | nil =>
      rw [getCalories_notFound_of fuse up c now dish servings hs] at h
      simp at h
    | cons f fs =>
      cases hbm : findBestMatch fuse (f :: fs) dish with
      | none =>
        have hsome := findBestMatch_isSome fuse (f :: fs) dish (by simp)
        rw [hbm] at hsome
        simp at hsome
      | some b =>
        cases hec : extractCalories b with
        | none =>
          rw [getCalories_unavailable_of fuse up c now dish servings
            (f :: fs) b hs hbm hec] at h
          simp at h
        | some v =>
          rw [getCalories_ok_of fuse up c now dish servings (f :: fs) b v
            hs hbm hec] at h
          simp at h
          subst h
          refine ⟨rfl, ?_⟩
          intro n hn
          subst hn
          show ((jsRound ((jsRound v : ℚ) * (n : ℚ)) : ℤ) : ℚ) = _
          rw [jsRound_int_mul (jsRound v) n]
          push_cast
          ring

/-- C2 witness (for the amended claim). -/
theorem C2_amended_witness :
    ((getCalories trivFuse (upstreamOf [dressingFood]) emptyCache 0
        "dressing" 2).1 = Except.ok dressingResult2) ∧
    (dressingResult2.total_calories =
        jsRound ((dressingResult2.calories_per_serving : ℚ) * 2) ∧
      (∀ n : ℤ, (2 : ℚ) = (n : ℚ) →
        (dressingResult2.total_calories : ℚ) =
          (dressingResult2.calories_per_serving : ℚ) * 2)) := by
  have hok : (getCalories trivFuse (upstreamOf [dressingFood]) emptyCache 0
      "dressing" 2).1 = Except.ok dressingResult2 := by
    rw [getCalories_ok_of trivFuse (upstreamOf [dressingFood]) emptyCache 0
      "dressing" 2 [dressingFood] dressingFood 87 rfl rfl rfl]
    norm_num [jsRound, Int.floor_eq_iff, dressingFood, dressingResult2]
  exact ⟨hok, C2_amended_rounded_product trivFuse (upstreamOf [dressingFood])
    emptyCache 0 "dressing" 2 dressingResult2 hok⟩

/-- C3 counterexample: the cache key is built from the raw query, so
`" apple"` and `"apple"` get distinct keys, and a search for `" apple"`
contacts the external source again even though an identical-up-to-whitespace
search for `"apple"` has just been cached. -/
theorem C3_counterexample :
    cacheKey " apple" 25 ≠ cacheKey "apple" 25 ∧
    (searchFoods (upstreamOf []) ((searchFoods (upstreamOf []) emptyCache 0
      "apple" 25).2.1) 0 " apple" 25).2.2 = true := by
  constructor
  · decide
  · rfl

/-- C3 (amended): `searchFoods` derives its cache key from the raw,
untrimmed query text together with the page size — injectively in the query
for any fixed page size, so two queries differing only in leading or
trailing whitespace use distinct cache entries; only the upstream request
receives the trimmed text. -/
theorem C3_amended_cache_key_raw_query (up : Upstream) (c : CacheState)
    (now : Nat) (q : String) (p : Nat) :
    ((searchFoods up c now q p).2.2 = false ↔
      (cacheGet c (cacheKey q p) now).isSome = true) ∧
    (∀ q1 q2 : String, cacheKey q1 p = cacheKey q2 p → q1 = q2) ∧
    (∀ fo, cacheGet c (cacheKey q p) now = none →
      up q.trim p = UpstreamResult.success fo →
      (searchFoods up c now q p).1 = Except.ok (fo.getD [])) := by
  refine ⟨?_, ?_, ?_⟩
  · unfold searchFoods
    cases hget : cacheGet c (cacheKey q p) now with
    | some v => simp
    | none =>
      cases hup : up q.trim p with
      | success fo => simp
      | failure st =>
        by_cases h429 : st = some 429
        · subst h429; simp
        · by_cases h403 : st = some 403
          · subst h403; simp
          · simp [h429, h403]
  · intro q1 q2 h
    simp only [cacheKey, String.ext_iff, String.data_append,
      List.append_assoc] at h
    apply String.ext
    exact List.append_cancel_right (List.append_cancel_left h)
  · intro fo hget hup
    unfold searchFoods
    rw [hget, hup]

/-- C3 witness (for the amended claim). -/
theorem C3_amended_witness :
    (cacheGet emptyCache (cacheKey "apple" 25) 0 = none) ∧
    ((searchFoods (upstreamOf []) emptyCache 0 "apple" 25).1 =
      Except.ok ((some ([] : List Food)).getD [])) :=
  ⟨rfl,
    (C3_amended_cache_key_raw_query (upstreamOf []) emptyCache 0 "apple"
      25).2.2 (some []) rfl rfl⟩

/-- While the key is cached, repeated searches never contact the source and
leave the cache untouched. -/
theorem repeatSearch_of_hit (up : Upstream) (now : Nat) (q : String)
    (p : Nat) (c : CacheState) (v : List Food)
    (h : cacheGet c (cacheKey q p) now = some v) (n : Nat) :
    repeatSearch up now q p c n = (c, 0) := by
  induction n with
  | zero => rfl
  | succ n ih =>
    have hsf : searchFoods up c now q p = (Except.ok v, c, false) := by
      unfold searchFoods
      rw [h]
    simp [repeatSearch, hsf, ih]

/-- C7: on a cache miss with a successful upstream, `searchFoods` stores the
raw result list — even an empty one — into the cache before returning it;
any repeated identical call within the 3600-second TTL is served from the
cache without contacting the source, and across `n ≥ 1` repeated calls the
source is contacted exactly once. -/
theorem C7_cache_store_and_at_most_one_call (up : Upstream) (c : CacheState)
    (now : Nat) (q : String) (p : Nat) (fo : Option (List Food))
    (hup : up q.trim p = UpstreamResult.success fo)
    (hmiss : cacheGet c (cacheKey q p) now = none) :
    searchFoods up c now q p =
      (Except.ok (fo.getD []),
        cacheSet c (cacheKey q p) now (fo.getD []), true) ∧
    (∀ t, t ≤ now + cacheTTL →
      cacheGet (searchFoods up c now q p).2.1 (cacheKey q p) t =
        some (fo.getD []) ∧
      searchFoods up ((searchFoods up c now q p).2.1) t q p =
        (Except.ok (fo.getD []), (searchFoods up c now q p).2.1, false)) ∧
    (∀ n, 1 ≤ n → (repeatSearch up now q p c n).2 = 1) := by
  have hfirst : searchFoods up c now q p =
      (Except.ok (fo.getD []),
        cacheSet c (cacheKey q p) now (fo.getD []), true) := by
    unfold searchFoods
    rw [hmiss, hup]
  have hget : ∀ t, t ≤ now + cacheTTL →
      cacheGet (cacheSet c (cacheKey q p) now (fo.getD []))
        (cacheKey q p) t = some (fo.getD []) := by
    intro t ht
    simp [cacheGet, cacheSet, List.find?, ht]
  refine ⟨hfirst, ?_, ?_⟩
  · intro t ht
    rw [hfirst]
    refine ⟨hget t ht, ?_⟩
    unfold searchFoods
    rw [hget t ht]
  · intro n hn
    match n, hn with
    | n+1, _ =>
      have hrest := repeatSearch_of_hit up now q p
        (cacheSet c (cacheKey q p) now (fo.getD [])) (fo.getD [])
        (hget now (Nat.le_add_right now cacheTTL)) n
      simp [repeatSearch, hfirst, hrest]

/-- C7 witness (empty upstream result list, three repeated calls). -/
theorem C7_witness :
    (upstreamOf []) "apple".trim 25 = UpstreamResult.success (some []) ∧
    cacheGet emptyCache (cacheKey "apple" 25) 0 = none ∧
    (repeatSearch (upstreamOf []) 0 "apple" 25 emptyCache 3).2 = 1 :=
  ⟨rfl, rfl,
    (C7_cache_store_and_at_most_one_call (upstreamOf []) emptyCache 0
      "apple" 25 (some []) rfl rfl).2.2 3 (by norm_num)⟩

/-- C8 counterexample: `zeroCalorieFood` has a qualifying energy entry
(its nutrient list is present, non-empty, and its first entry satisfies the
combined predicate), yet `extractCalories` returns nothing instead of that
entry's value `0`, because the source also requires the value to be truthy. -/
theorem C8_counterexample :
    ((zeroCalorieFood.foodNutrients.getD []).find? isEnergyNutrient).isSome
      = true ∧
    extractCalories zeroCalorieFood = none :=
  ⟨rfl, rfl⟩

/-- C8 (amended): `extractCalories` scans the nutrient list in natural
order, in one pass with the combined predicate
`nutrientId == 1008 OR nutrientName contains "energy" case-insensitively`,
and returns the first qualifying entry's value when that value is present
and nonzero; it returns nothing — never raising — when the nutrient list is
absent or empty, when no entry qualifies, or when the first qualifying
entry's value is missing or zero. -/
theorem C8_amended_extract_first_match_value :
    (∀ food, food.foodNutrients = none → extractCalories food = none) ∧
    (∀ food ns, food.foodNutrients = some ns →
      ns.find? isEnergyNutrient = none → extractCalories food = none) ∧
    (∀ food ns e v, food.foodNutrients = some ns →
      ns.find? isEnergyNutrient = some e → e.value = some v → v ≠ 0 →
      extractCalories food = some v) ∧
    (∀ food ns e, food.foodNutrients = some ns →
      ns.find? isEnergyNutrient = some e →
      (e.value = none ∨ e.value = some 0) → extractCalories food = none) ∧
    (∀ n, isEnergyNutrient n = true ↔
      (n.nutrientId = some 1008 ∨ ∃ nm, n.nutrientName = some nm ∧
        strIncludes (strLower nm) "energy" = true)) := by
  refine ⟨?_, ?_, ?_, ?_, ?_⟩
  · intro food h
    simp [extractCalories, h]
  · intro food ns h hf
    simp [extractCalories, h, hf]
  · intro food ns e v h hf hv hnz
    simp [extractCalories, h, hf, hv, hnz]
  · intro food ns e h hf hv
    rcases hv with hv | hv <;> simp [extractCalories, h, hf, hv]
  · intro n
    unfold isEnergyNutrient
    cases hnm : n.nutrientName with
    | none => simp
    | some nm => simp

/-- C8 witness (for the amended claim). -/
theorem C8_amended_witness :
    (dressingFood.foodNutrients = some [energyEntry87] ∧
      [energyEntry87].find? isEnergyNutrient = some energyEntry87 ∧
      energyEntry87.value = some 87 ∧ (87 : ℚ) ≠ 0) ∧
    extractCalories dressingFood = some 87 :=
  ⟨⟨rfl, rfl, rfl, by norm_num⟩,
    C8_amended_extract_first_match_value.2.2.1 dressingFood [energyEntry87]
      energyEntry87 87 rfl rfl rfl (by norm_num)⟩

/-- C10: when the first qualifying energy entry of a candidate's nutrient
list has value 0 or no value at all, `extractCalories` returns nothing, and
a lookup whose matched candidate is such a food fails with
`CaloriesUnavailable` rather than returning 0. -/
theorem C10_zero_value_treated_as_absent (food : Food)
    (ns : List NutrientEntry) (e : NutrientEntry)
    (hn : food.foodNutrients = some ns)
    (hf : ns.find? isEnergyNutrient = some e)
    (hv : e.value = some 0 ∨ e.value = none) :
    extractCalories food = none ∧
    (∀ (fuse : FuseSearch) (up : Upstream) (c : CacheState) (now : Nat)
      (dish : String) (servings : ℚ) (foods : List Food),
      (searchFoods up c now dish 25).1 = Except.ok foods →
      findBestMatch fuse foods dish = some food →
      (getCalories fuse up c now dish servings).1 =
        Except.error (LookupError.caloriesUnavailable dish)) := by
  have hnone : extractCalories food = none := by
    rcases hv with hv | hv <;> simp [extractCalories, hn, hf, hv]
  refine ⟨hnone, ?_⟩
  intro fuse up c now dish servings foods hfok hbm
  exact getCalories_unavailable_of fuse up c now dish servings foods food
    hfok hbm hnone

/-- C10 witness: an end-to-end lookup of a zero-calorie food. -/
theorem C10_witness :
    (zeroCalorieFood.foodNutrients = some [energyEntry0] ∧
      [energyEntry0].find? isEnergyNutrient = some energyEntry0 ∧
      (energyEntry0.value = some 0 ∨ energyEntry0.value = none)) ∧
    (extractCalories zeroCalorieFood = none ∧
      (getCalories trivFuse (upstreamOf [zeroCalorieFood]) emptyCache 0
        "soda" 1).1 =
        Except.error (LookupError.caloriesUnavailable "soda")) := by
  have h := C10_zero_value_treated_as_absent zeroCalorieFood [energyEntry0]
    energyEntry0 rfl rfl (Or.inl rfl)
  exact ⟨⟨rfl, rfl, Or.inl rfl⟩,
    h.1, h.2 trivFuse (upstreamOf [zeroCalorieFood]) emptyCache 0 "soda" 1
      [zeroCalorieFood] rfl rfl⟩

end MealCalorie
